import Mathlib

/-!
Verification of the leoai message-processing pipeline.

This file gives a shallow embedding of the pipeline code in
src/services/__init__.py, src/services/google_service.py,
src/services/whatsapp_service.py and src/services/ai_service.py, and proves
or refutes the frozen specification claims against it.

Modelling conventions:
* JSON values (the payloads produced by json.loads and carried through the
  pipeline) are the inductive type JVal; Python truthiness is pyTruthy.
* External collaborators (the Gemini call outcome, Secret Manager, the Drive
  search and create endpoints, the WhatsApp media endpoints, json.loads) are
  oracles collected in the structure Env.  The code under src is embedded
  faithfully on top of them.
* Observable effects (outbound WhatsApp notifications, sheet row appends,
  Drive calls, Gemini invocations) are collected in the structure Trace.
* Python exceptions are the type PyErr; a function that can let an exception
  escape returns an Except PyErr value.  Where the source has a genuinely
  unbound name (a NameError at runtime) the embedding takes the exception
  path, with a comment at the relevant definition citing the source line.
-/

namespace Leo

/-- A JSON value, as produced by json.loads and carried through the pipeline. -/
inductive JVal where
  | null
  | bool (b : Bool)
  | num (n : Int)
  | str (s : String)
  | arr (xs : List JVal)
  | obj (fields : List (String × JVal))

/-- The Python exception classes the pipeline can raise or catch. -/
inductive PyErr where
  | nameError
  | attributeError
  | typeError
  | keyError
  | indexError
  | jsonDecodeError
deriving DecidableEq

/-- The observable effects of one pipeline invocation: outbound WhatsApp
notifications (recipient, body), sheet rows appended, file names passed to
google_service.save_file, Drive upload attempts (file name, folder id),
texts sent to the Gemini extraction step, and WhatsApp media calls. -/
structure Trace where
  messages : List (String × String)
  rows : List (List JVal)
  saveFileCalls : List String
  driveUploads : List (String × String)
  aiCalls : List String
  mediaUrlCalls : List String
  mediaDownloadCalls : List String

/-- The empty effect trace. -/
def noTrace : Trace := ⟨[], [], [], [], [], [], []⟩

/-- Concatenation of effect traces (sequential composition). -/
def tApp (a b : Trace) : Trace :=
  ⟨a.messages ++ b.messages, a.rows ++ b.rows,
   a.saveFileCalls ++ b.saveFileCalls, a.driveUploads ++ b.driveUploads,
   a.aiCalls ++ b.aiCalls, a.mediaUrlCalls ++ b.mediaUrlCalls,
   a.mediaDownloadCalls ++ b.mediaDownloadCalls⟩

/-- Python truthiness of a JSON value: None, False, 0, empty string, empty
list and empty dict are falsy, everything else is truthy. -/
def pyTruthy : JVal → Bool
  | .null => false
  | .bool b => b
  | .num n => n != 0
  | .str s => s != ""
  | .arr xs => !xs.isEmpty
  | .obj fs => !fs.isEmpty

/-- Python dict.get(key, default) on a decoded JSON object. -/
def dictGet (fs : List (String × JVal)) (k : String) (d : JVal) : JVal :=
  match fs.lookup k with
  | some v => v
  | none => d

/-- Python `a or b` on pipeline values: b when a is falsy, else a. -/
def pyOr (a b : JVal) : JVal := if pyTruthy a then a else b

/-- Python `v in xs` for a decoded value against a list of strings (the
allow-list check on line 23 of src/services/__init__.py). -/
def pyIn (v : JVal) (xs : List String) : Bool :=
  match v with
  | .str s => xs.contains s
  | _ => false

/-- Python str() of a pipeline value, as used by the f-strings on lines
140-141 of src/services/__init__.py.  Container rendering is abridged (no
claim exercises str() on a list or dict). -/
def pyStr : JVal → String
  | .null => "None"
  | .bool true => "True"
  | .bool false => "False"
  | .num n => toString n
  | .str s => s
  | .arr _ => "[...]"
  | .obj _ => "\x7b...\x7d"

/-- Python str.replace for a single-character pattern (the only patterns the
source uses are one character long), as a per-character map. -/
def pyReplaceChar (s : String) (c d : Char) : String :=
  .mk (s.data.map (fun x => if x = c then d else x))

/-- Python slicing s[:n] (the source truncates the concept to 20 chars). -/
def pyTake (s : String) (n : Nat) : String := .mk (s.data.take n)

/-- Whether the first list starts with the second one. -/
def leadsWith : List Char → List Char → Bool
  | _, [] => true
  | [], _ :: _ => false
  | a :: as, b :: bs => a == b && leadsWith as bs

/-- Whether needle occurs inside hay. -/
def hasSub : List Char → List Char → Bool
  | [], needle => needle.isEmpty
  | a :: t, needle => leadsWith (a :: t) needle || hasSub t needle

/-- Python `needle in hay` on strings (line 138 of src/services/__init__.py
tests whether "pdf" occurs in the mimetype). -/
def strIn (needle hay : String) : Bool := hasSub hay.data needle.data

/-- Python subscription v[k] with a string key: KeyError on a dict without
the key, TypeError on lists and scalars. -/
def pyIndexS (v : JVal) (k : String) : Except PyErr JVal :=
  match v with
  | .obj fs =>
    match fs.lookup k with
    | some x => .ok x
    | none => .error .keyError
  | _ => .error .typeError

/-- Python subscription v[i] with an integer index: IndexError out of bounds
on a list, KeyError on a dict.  Character indexing of strings is folded into
TypeError: a successful extraction is impossible from a string here either,
since the next step subscripts with a string key, which raises TypeError on
a one-character string as well. -/
def pyIndexN (v : JVal) (i : Nat) : Except PyErr JVal :=
  match v with
  | .arr xs =>
    match xs.get? i with
    | some x => .ok x
    | none => .error .indexError
  | .obj _ => .error .keyError
  | _ => .error .typeError

/-- Python dict.get(key) with the None default, on a value known to be a
decoded object (as message_data is once its subscriptions succeeded). -/
def jGet (v : JVal) (k : String) : JVal :=
  match v with
  | .obj fs => dictGet fs k .null
  | _ => .null

/-- The external collaborators the pipeline calls, as oracles.

The field authorizedUsers is modelled from the spec: the function
google_service.get_authorized_users called on line 22 of
src/services/__init__.py is absent from src (only its caller is present);
per spec section 3 it returns the AuthorizationList, the spreadsheet-backed
set of permitted sender identifiers, re-fetched per event. -/
structure Env where
  authorizedUsers : List String
  /-- Whether ai_service.initialize_gemini succeeded (module-level client). -/
  clientAvailable : Bool
  /-- Outcome of the Gemini request for a given text.  ai_service line 77
  passes contents=text, so the request depends only on the text argument;
  none is a collaborator failure (caught inside process_with_gemini). -/
  gemini : String → Option String
  /-- Outcome of Python json.loads on a raw string: a decoded value or a
  JSONDecodeError. -/
  jsonLoads : String → Except PyErr JVal
  /-- services.secrets.get_secret: the secret value, or None on any failure
  (the function catches everything and never raises). -/
  secrets : String → Option String
  /-- Outcome of the gspread sheet append for a given row (google_service
  line 58): .error is a collaborator exception raised by the append, which
  add_row_to_sheet catches on line 62. -/
  sheets : List JVal → Except Unit Unit
  /-- Drive folder search (google_service lines 108-120): .error is an API
  exception, .ok none an empty result list, .ok (some id) a match. -/
  driveLookup : String → String → Except Unit (Option String)
  /-- Drive file creation for a (file name, folder id) pair: .error is an
  API exception, .ok none a response without a webViewLink, .ok (some link)
  a created file with its link. -/
  driveCreate : String → String → Except Unit (Option String)
  /-- Media-id to download-url resolution outcome at the requests layer. -/
  mediaUrl : String → Option String
  /-- Media download outcome for a url at the requests layer. -/
  mediaDownload : String → Option (List Nat)

/-- whatsapp_service.send_whatsapp_message (lines 11-36): records the
outbound notification.  The HTTP mechanics (secret fetch, POST, swallowed
request exceptions) are external to the pipeline logic; the function never
raises. -/
def send_whatsapp_message (recipient message : String) : Trace :=
  ⟨[(recipient, message)], [], [], [], [], [], []⟩

/-- google_service.add_row_to_sheet (lines 46-63): hands the row to the
gspread append.  Every failure is handled inside the function: missing
credentials return early (lines 49-51), and any exception from the append
is caught and logged by the except Exception handler of line 62, so the
function returns normally for every collaborator outcome and the call with
its row is the observable — an append failure never raises past this
function and is not terminal for the event.  (The FileNotFoundError handler
of line 60 is not modelled separately: that exception class cannot arise
from the gspread append path, and its log line references the unbound name
creds_path.) -/
def add_row_to_sheet (env : Env) (row : List JVal) : Trace :=
  match env.sheets row with
  | .ok _ => ⟨[], [row], [], [], [], [], []⟩
  | .error _ => ⟨[], [row], [], [], [], [], []⟩

/-- ai_service.process_with_gemini (lines 35-92): the AI extraction step.
Returns None when the client is unavailable or the collaborator fails; the
invocation is recorded with the text argument (line 77 passes contents=text,
so file bytes never reach the request in the current source). -/
def process_with_gemini (env : Env) (text : String) : Option String × Trace :=
  (if env.clientAvailable then env.gemini text else none,
   ⟨[], [], [], [], [text], [], []⟩)

/-- whatsapp_service.get_media_url (lines 38-55): resolves a media id to a
short-lived url; None when the access token is unavailable or the request
fails. -/
def get_media_url (env : Env) (mediaId : String) : Option String × Trace :=
  ((match env.secrets "WHATSAPP_ACCESS_TOKEN" with
    | none => none
    | some _ => env.mediaUrl mediaId),
   ⟨[], [], [], [], [], [mediaId], []⟩)

/-- whatsapp_service.download_media_content (lines 57-73): downloads the raw
bytes; None when the token is unavailable or the request fails. -/
def download_media_content (env : Env) (mediaUrl : String) :
    Option (List Nat) × Trace :=
  ((match env.secrets "WHATSAPP_ACCESS_TOKEN" with
    | none => none
    | some _ => env.mediaDownload mediaUrl),
   ⟨[], [], [], [], [], [], [mediaUrl]⟩)

/-- google_service.upload_file_to_drive (lines 172-212): records the upload
attempt; returns the webViewLink, or None when the create call raises or
the response has no link (every exception is caught internally). -/
def upload_file_to_drive (env : Env) (file_bytes : List Nat)
    (filename folderId mimetype : String) : JVal × Trace :=
  ((match env.driveCreate filename folderId with
    | .ok (some link) => .str link
    | .ok none => .null
    | .error _ => .null),
   ⟨[], [], [], [(filename, folderId)], [], [], []⟩)

/-- google_service.get_or_create_subfolder (lines 99-132): despite its name,
the current source never creates anything.  It searches for the named
subfolder under the parent; a match returns its id (line 125), an empty
result returns the parent id (line 128), and any exception is caught and
also returns the parent id (line 132).  The function never raises. -/
def get_or_create_subfolder (env : Env) (folderName parentId : String) :
    String :=
  match env.driveLookup folderName parentId with
  | .ok (some id) => id
  | .ok none => parentId
  | .error _ => parentId

/-- google_service.get_folder_id_by_date (lines 82-97).  The first statement
of the body is datetime.strptime(full_date, ...), but google_service.py
binds datetime with `import datetime`, and the datetime module has no
strptime attribute (the datetime.datetime class does), so the statement
raises AttributeError before any folder lookup, for every argument value.
The rest of the body is unreachable and itself references the unbound names
dare (line 89) and year_id_id (line 95).  The function therefore always
raises; the intended year/month get_or_create_subfolder calls never run. -/
def get_folder_id_by_date (rootId : Option String) (fullDate : JVal) :
    Except PyErr String :=
  .error .attributeError

/-- google_service.save_file (lines 67-79): fetches the Drive root folder
id, resolves the dated destination folder, uploads, and returns the link;
any exception inside the try block is caught and returns None.  Because
get_folder_id_by_date always raises AttributeError, the upload is never
reached in the current source and the result is always None. -/
def save_file (env : Env) (file_bytes : List Nat) (date : JVal)
    (fileName mimetype : String) : JVal × Trace :=
  let callT : Trace := ⟨[], [], [fileName], [], [], [], []⟩
  match get_folder_id_by_date (env.secrets "GOOGLE_DRIVE_FOLDER_ID") date with
  | .error _ => (.null, callT)
  | .ok target =>
    let (link, t) := upload_file_to_drive env file_bytes fileName target mimetype
    (link, tApp callT t)

/-- Line 123 of src/services/__init__.py:
valid_expense = expense_data.get('valid_expense') or False. -/
def valid_expense_of (fs : List (String × JVal)) : JVal :=
  pyOr (dictGet fs "valid_expense" .null) (.bool false)

/-- The guard of line 124 of src/services/__init__.py:
`if not valid_expense:` — true exactly when the dispatcher takes the
invalid-expense branch. -/
def invalid_branch (fs : List (String × JVal)) : Bool :=
  !pyTruthy (valid_expense_of fs)

/-- Line 131 of src/services/__init__.py:
folder = expense_data.get('folder', 'Unknown'). -/
def folderOf (fs : List (String × JVal)) : JVal :=
  dictGet fs "folder" (.str "Unknown")

/-- The five-value folder enum of the spec (section 6). -/
def folderEnum : List String :=
  ["Salitre", "Tramonte", "Villa", "Manuela Sancho", "Unknown"]

/-- The notification texts of src/services/__init__.py. -/
def emptyMsg : String := "❌ AI response was empty. Cannot process further."

/-- Line 180 notification. -/
def parseErrMsg : String := "❌ Could not parse AI response as JSON"

/-- Line 183 notification (the generic except-Exception handler). -/
def prepErrMsg : String := "❌ An error occurred during data preparation:"

/-- Line 126 default explanation for an invalid expense. -/
def invalidDefaultMsg : String := "❌ Invalid expense. Not saving to Google Sheets."

/-- Line 176 success notification. -/
def successMsg : String := "📝 ¡Listo! Datos agregados correctamente a tu Google Sheet."

/-- Line 25 denial notification for a non-allow-listed sender. -/
def denialMsg : String := "Lo siento, no eres un usuario autorizado para usar este chat."

/-- Line 64 notification of the webhook-payload parse handler. -/
def parsePayloadErrMsg : String := "❌ Could not parse WhatsApp webhook payload."

/-- handle_ai_response (src/services/__init__.py lines 102-183).

Control flow notes, traced from the source:
* ai_response None or empty (line 110, truthiness): one empty-response
  notification, nothing else.
* json.loads failure (line 119): the JSONDecodeError handler of line 178
  sends the parse-failure notification; no row.
* decoded value not a dict: line 123 .get raises AttributeError, caught by
  the except Exception handler of line 181, which sends the generic
  data-preparation notification; no row.
* invalid-expense branch (lines 124-128): error_message is computed, but the
  send on line 128 targets sender_number, an unbound name, so the statement
  raises NameError before any notification is sent; the except Exception
  handler of line 181 then sends the generic data-preparation notification
  and the function returns — no row, and the AI-supplied explanation is
  never delivered.  (The branch also has no return statement: had the send
  succeeded, control would have fallen through into persistence.)
* valid branch: media present (truthiness of file_bytes and mimetype, line
  137) triggers save_file with the constructed file name; the row of lines
  148-158 is appended in source order and the success notification of line
  176 is sent.  No statement on this path can raise. -/
def handle_ai_response (env : Env) (timestamp sender_phone : String)
    (ai_response : Option String) (file_bytes : Option (List Nat))
    (mimetype : Option String) : Trace :=
  match ai_response with
  | none => send_whatsapp_message sender_phone emptyMsg
  | some raw =>
    if raw = "" then send_whatsapp_message sender_phone emptyMsg
    else
      match env.jsonLoads raw with
      | .error _ => send_whatsapp_message sender_phone parseErrMsg
      | .ok (.obj fields) =>
        if invalid_branch fields then
          send_whatsapp_message sender_phone prepErrMsg
        else
          let date_for_drive := pyOr (dictGet fields "date" .null) (.str timestamp)
          let folder := folderOf fields
          let concept := dictGet fields "concept" (.str "")
          let linkAndT : JVal × Trace :=
            match file_bytes, mimetype with
            | some bs, some mt =>
              if !bs.isEmpty && mt != "" then
                let ext := if strIn "pdf" mt then ".pdf" else ".jpg"
                let clean_concept :=
                  pyTake (pyReplaceChar (pyStr concept) (Char.ofNat 32) (Char.ofNat 95)) 20
                let file_name :=
                  pyStr folder ++ "_" ++ clean_concept ++ "_" ++
                  pyReplaceChar (pyReplaceChar timestamp (Char.ofNat 32) (Char.ofNat 95))
                    (Char.ofNat 58) (Char.ofNat 45) ++ ext
                save_file env bs date_for_drive file_name mt
              else (.str "", noTrace)
            | _, _ => (.str "", noTrace)
          let row_to_add : List JVal :=
            [date_for_drive, concept,
             dictGet fields "amount" (.str ""), dictGet fields "currency" (.str ""),
             dictGet fields "category" (.str ""), dictGet fields "subcategory" (.str ""),
             .str sender_phone, .str timestamp, linkAndT.1]
          tApp linkAndT.2
            (tApp (add_row_to_sheet env row_to_add)
              (send_whatsapp_message sender_phone successMsg))
      | .ok _ =>
        send_whatsapp_message sender_phone prepErrMsg

/-- process_media_message (src/services/__init__.py lines 66-100): resolves
the media url, downloads the bytes, and only then invokes the extraction
step on the caption; either failure returns (None, None) without reaching
the extraction step.  (In the current source this function is never entered:
its only call site, line 54, raises NameError first — see
handle_whatsapp_message.) -/
def process_media_message (env : Env) (media_id caption : String) :
    (Option String × Option (List Nat)) × Trace :=
  let (media_url, t1) := get_media_url env media_id
  match media_url with
  | none => ((none, none), t1)
  | some url =>
    let (file_bytes, t2) := download_media_content env url
    match file_bytes with
    | none => ((none, none), tApp t1 t2)
    | some bs =>
      let (ai_response, t3) := process_with_gemini env caption
      ((ai_response, some bs), tApp t1 (tApp t2 t3))

/-- Line 19 of src/services/__init__.py:
data['entry'][0]['changes'][0]['value']['messages'][0]. -/
def extract_message_data (data : JVal) : Except PyErr JVal :=
  match pyIndexS data "entry" with
  | .error e => .error e
  | .ok a =>
    match pyIndexN a 0 with
    | .error e => .error e
    | .ok b =>
      match pyIndexS b "changes" with
      | .error e => .error e
      | .ok c =>
        match pyIndexN c 0 with
        | .error e => .error e
        | .ok d =>
          match pyIndexS d "value" with
          | .error e => .error e
          | .ok v =>
            match pyIndexS v "messages" with
            | .error e => .error e
            | .ok m => pyIndexN m 0

/-- Line 40: message_data['text']['body']. -/
def textBody (md : JVal) : Except PyErr JVal :=
  match pyIndexS md "text" with
  | .error e => .error e
  | .ok t => pyIndexS t "body"

/-- Lines 48-51: media_info = message_data[message_type], then
media_info['id'] and media_info['mime_type'] (the caption uses .get and
cannot raise). -/
def mediaInfoFields (md mt : JVal) : Except PyErr Unit :=
  match pyIndexS md (pyStr mt) with
  | .error e => .error e
  | .ok mi =>
    match pyIndexS mi "id" with
    | .error e => .error e
    | .ok _ =>
      match pyIndexS mi "mime_type" with
      | .error e => .error e
      | .ok _ => .ok ()

/-- Whether message_type == 'text' (line 38). -/
def isTextType (v : JVal) : Bool :=
  match v with
  | .str s => s == "text"
  | _ => false

/-- Whether message_type in ['image', 'document'] (line 44). -/
def isMediaType (v : JVal) : Bool :=
  match v with
  | .str s => s == "image" || s == "document"
  | _ => false

/-- handle_whatsapp_message (src/services/__init__.py lines 16-64), the
event dispatcher.

Control flow notes, traced from the source:
* A KeyError or IndexError during the payload subscriptions of lines 19-20
  is caught by the handler of line 61, but that handler then reads the
  still-unbound local sender_phone on line 64, raising NameError, which
  escapes the function.  Any other exception class (e.g. TypeError from a
  non-container payload) escapes directly.
* An unauthorized sender (line 23, membership in the spec-modelled
  get_authorized_users result) gets exactly the fixed denial notification
  and the function returns normally, so the webhook is acknowledged.
* Text events: a KeyError below line 38 is caught and, sender_phone being
  bound now, the payload-parse notification of line 64 is sent; otherwise
  the extraction step runs on the body and handle_ai_response follows.
* Image and document events: after the subscriptions of lines 48-51, line 54
  calls process_media_message with six arguments, the last being the unbound
  name historial; evaluating that argument raises NameError (the callee
  takes five parameters besides), which the except clause of line 61 does
  not catch, so the exception escapes the dispatcher with no notification,
  no media call and no row.
* Any other message type falls through with ai_response = None, and
  handle_ai_response sends the empty-response notification. -/
def handle_whatsapp_message (env : Env) (timestamp : String) (data : JVal) :
    Except PyErr Unit × Trace :=
  match extract_message_data data with
  | .error .keyError => (.error .nameError, noTrace)
  | .error .indexError => (.error .nameError, noTrace)
  | .error e => (.error e, noTrace)
  | .ok message_data =>
    match pyIndexS message_data "from" with
    | .error .keyError => (.error .nameError, noTrace)
    | .error e => (.error e, noTrace)
    | .ok sender_phone =>
      if !pyIn sender_phone env.authorizedUsers then
        (.ok (), send_whatsapp_message (pyStr sender_phone) denialMsg)
      else
        let message_type := jGet message_data "type"
        if isTextType message_type then
          match textBody message_data with
          | .error .keyError =>
            (.ok (), send_whatsapp_message (pyStr sender_phone) parsePayloadErrMsg)
          | .error .indexError =>
            (.ok (), send_whatsapp_message (pyStr sender_phone) parsePayloadErrMsg)
          | .error e => (.error e, noTrace)
          | .ok body =>
            let (ai_response, t1) := process_with_gemini env (pyStr body)
            (.ok (), tApp t1
              (handle_ai_response env timestamp (pyStr sender_phone) ai_response none none))
        else if isMediaType message_type then
          match mediaInfoFields message_data message_type with
          | .error .keyError =>
            (.ok (), send_whatsapp_message (pyStr sender_phone) parsePayloadErrMsg)
          | .error .indexError =>
            (.ok (), send_whatsapp_message (pyStr sender_phone) parsePayloadErrMsg)
          | .error e => (.error e, noTrace)
          | .ok _ => (.error .nameError, noTrace)
        else
          (.ok (), handle_ai_response env timestamp (pyStr sender_phone) none none none)

/-- A well-formed webhook payload shell carrying one message whose sender id
is sender and whose remaining fields are rest. -/
def mkEvent (sender : String) (rest : List (String × JVal)) : JVal :=
  .obj [("entry", .arr [.obj [("changes", .arr [.obj [("value",
    .obj [("messages", .arr [.obj (("from", .str sender) :: rest)])])]])]])]

/-- A well-formed text event. -/
def mkTextEvent (sender body : String) : JVal :=
  mkEvent sender [("type", .str "text"), ("text", .obj [("body", .str body)])]

/-- A well-formed image event. -/
def mkImageEvent (sender mediaId mime caption : String) : JVal :=
  mkEvent sender [("type", .str "image"),
    ("image", .obj [("id", .str mediaId), ("mime_type", .str mime),
      ("caption", .str caption)])]

/-- A base collaborator environment for the concrete runs below: the sender
777 is allow-listed, the Gemini client is available, Secret Manager serves
every secret, Drive folder searches find nothing, Drive file creation
succeeds, media resolution and download fail, and json.loads rejects every
string. -/
def envBase : Env :=
  { authorizedUsers := ["777"]
    clientAvailable := true
    gemini := fun _ => none
    jsonLoads := fun _ => .error .jsonDecodeError
    secrets := fun _ => some "root"
    sheets := fun _ => .ok ()
    driveLookup := fun _ _ => .ok none
    driveCreate := fun _ _ => .ok (some "http://drive/link")
    mediaUrl := fun _ => none
    mediaDownload := fun _ => none }

/-- The decoded form of the raw AI text used against C1: an invalid expense
with an AI-supplied explanation. -/
def payloadC1 : JVal :=
  .obj [("valid_expense", .bool false), ("message", .str "Not an expense")]

/-- envBase with json.loads decoding the raw text J1 to payloadC1. -/
def envC1 : Env :=
  { envBase with jsonLoads := fun s =>
      if s = "J1" then .ok payloadC1 else .error .jsonDecodeError }

/-- The decoded form of the raw AI text used against C2: a valid expense
whose folder value is outside the five-value enum. -/
def payloadC2 : JVal :=
  .obj [("folder", .str "Garbage"), ("valid_expense", .bool true)]

/-- envBase with json.loads decoding the raw text G to payloadC2. -/
def envC2 : Env :=
  { envBase with jsonLoads := fun s =>
      if s = "G" then .ok payloadC2 else .error .jsonDecodeError }

/-- The decoded form of the section-8 AI mock of the spec. -/
def payloadC5 : JVal :=
  .obj [("concept", .str "rent"), ("amount", .num 50), ("currency", .str "USD"),
    ("category", .str "Rent"), ("folder", .str "Villa"),
    ("valid_expense", .bool true), ("date", .str "2024-01-01")]

/-- envBase with the Gemini oracle answering the section-8 text with the raw
text R5 and json.loads decoding R5 to payloadC5. -/
def envC5 : Env :=
  { envBase with
    gemini := fun t => if t = "Paid 50 USD rent" then some "R5" else none
    jsonLoads := fun s =>
      if s = "R5" then .ok payloadC5 else .error .jsonDecodeError }

/-- The decoded form of the raw AI text used against C7: a valid expense
arriving together with media bytes. -/
def payloadC7 : JVal :=
  .obj [("valid_expense", .bool true), ("concept", .str "x"),
    ("date", .str "2024-01-01")]

/-- envBase with json.loads decoding the raw text R7 to payloadC7. -/
def envC7 : Env :=
  { envBase with jsonLoads := fun s =>
      if s = "R7" then .ok payloadC7 else .error .jsonDecodeError }

/-- envBase whose Drive folder search raises an API exception. -/
def envLookupErr : Env :=
  { envBase with driveLookup := fun _ _ => .error () }

/-- envC7 with a sheets collaborator whose append raises on every row. -/
def envC7SheetsFail : Env :=
  { envC7 with sheets := fun _ => .error () }

/-- The decoded payloads used against C10: a falsy non-boolean
valid_expense (the number 0) and a truthy one (the string "false"). -/
def payloadC10a : JVal := .obj [("valid_expense", .num 0)]

/-- See payloadC10a. -/
def payloadC10b : JVal := .obj [("valid_expense", .str "false")]

/-- envBase with json.loads decoding Z to payloadC10a and F to payloadC10b. -/
def envC10 : Env :=
  { envBase with jsonLoads := fun s =>
      if s = "Z" then .ok payloadC10a
      else if s = "F" then .ok payloadC10b
      else .error .jsonDecodeError }

/-- Python `x or False` has the truthiness of x. -/
theorem truthy_pyOr_false (a : JVal) :
    pyTruthy (pyOr a (JVal.bool false)) = pyTruthy a := by
  unfold pyOr
  cases h : pyTruthy a <;> simp [h] <;> rfl

/-- The effects of add_row_to_sheet are the row hand-over alone, for every
sheets-collaborator outcome: an append failure is caught inside the
function (google_service line 62) and changes nothing observable. -/
theorem add_row_to_sheet_eq (env : Env) (row : List JVal) :
    add_row_to_sheet env row = ⟨[], [row], [], [], [], [], []⟩ := by
  unfold add_row_to_sheet
  cases env.sheets row <;> rfl

/-- C1: the claim says that for a parsed AI payload whose valid_expense is
false or missing, the dispatcher aborts, notifies the sender with the
AI-supplied message or a default, and appends no row.  Evaluating
handle_ai_response at such a payload: no row is appended and
add_row_to_sheet is never reached, but the notification the sender receives
is the generic except-Exception text of line 183, not the AI-supplied
explanation and not the line 126 default — line 128 sends to the unbound
name sender_number, raising NameError.  (The branch also lacks a return:
only the accidental NameError prevents the fall-through into persistence.) -/
theorem C1_invalid_expense_notification_bug :
    handle_ai_response envC1 "2024-01-01 12:00:00" "777" (some "J1") none none =
      ⟨[("777", prepErrMsg)], [], [], [], [], [], []⟩ ∧
    prepErrMsg ≠ "Not an expense" ∧ prepErrMsg ≠ invalidDefaultMsg :=
  ⟨rfl, by decide, by decide⟩

/-- C2, counterexample: a folder value outside the five-value enum is NOT
coerced to "Unknown" — normalization passes "Garbage" through (line 131 only
supplies a default for a missing key), and the uncoerced value reaches the
persistence step inside the Drive file name. -/
theorem C2_folder_not_coerced_counterexample :
    folderOf [("folder", JVal.str "Garbage")] = JVal.str "Garbage" ∧
    folderEnum.contains "Garbage" = false ∧
    (handle_ai_response envC2 "2024-01-01 12:00:00" "777" (some "G")
      (some [1]) (some "image/jpeg")).saveFileCalls =
      ["Garbage__2024-01-01_12-00-00.jpg"] ∧
    (handle_ai_response envC2 "2024-01-01 12:00:00" "777" (some "G")
      (some [1]) (some "image/jpeg")).rows.length = 1 :=
  ⟨rfl, by decide, rfl, rfl⟩

/-- C2, amended: a missing folder key defaults to "Unknown", and a present
folder value is passed through unchanged — values outside the enum are not
coerced before persistence. -/
theorem C2_folder_default_no_coercion :
    (∀ fs : List (String × JVal), fs.lookup "folder" = none →
      folderOf fs = JVal.str "Unknown") ∧
    (∀ (fs : List (String × JVal)) (v : JVal), fs.lookup "folder" = some v →
      folderOf fs = v) := by
  constructor
  · intro fs h
    simp [folderOf, dictGet, h]
  · intro fs v h
    simp [folderOf, dictGet, h]

/-- Witness for C2_folder_default_no_coercion at concrete inputs. -/
theorem C2_folder_default_no_coercion_witness :
    folderOf [] = JVal.str "Unknown" ∧
    folderOf [("folder", JVal.str "Garbage")] = JVal.str "Garbage" :=
  ⟨C2_folder_default_no_coercion.1 [] rfl,
   C2_folder_default_no_coercion.2 [("folder", JVal.str "Garbage")]
     (JVal.str "Garbage") rfl⟩

/-- C4: an inbound event whose sender id is not in the allow-list gets
exactly one denial notification, zero rows, no media resolution, no AI
extraction, and the dispatcher returns normally so the webhook is still
acknowledged.  (The allow-list source get_authorized_users is modelled from
the spec; see Env.authorizedUsers.) -/
theorem C4_unauthorized_sender_denied (env : Env) (ts sender : String)
    (rest : List (String × JVal))
    (h : env.authorizedUsers.contains sender = false) :
    handle_whatsapp_message env ts (mkEvent sender rest) =
      (.ok (), ⟨[(sender, denialMsg)], [], [], [], [], [], []⟩) := by
  have hIn : pyIn (JVal.str sender) env.authorizedUsers = false := h
  simp [handle_whatsapp_message, extract_message_data, mkEvent, pyIndexS,
    pyIndexN, List.lookup, hIn, pyStr, send_whatsapp_message]

/-- Witness for C4_unauthorized_sender_denied: the sender 555 is not in the
envBase allow-list and receives exactly the denial, with an empty trace
otherwise. -/
theorem C4_unauthorized_sender_denied_witness :
    envBase.authorizedUsers.contains "555" = false ∧
    handle_whatsapp_message envBase "t"
      (mkEvent "555" [("type", JVal.str "text"),
        ("text", JVal.obj [("body", JVal.str "hi")])]) =
      (.ok (), ⟨[("555", denialMsg)], [], [], [], [], [], []⟩) :=
  ⟨by decide, C4_unauthorized_sender_denied envBase "t" "555"
    [("type", JVal.str "text"), ("text", JVal.obj [("body", JVal.str "hi")])]
    (by decide)⟩

/-- C5, counterexample: the section-8 text event with the section-8 AI mock
produces exactly one row and one success notification, but the subcategory
column holds the empty string (the line 154 .get default), not null as the
claim states. -/
theorem C5_subcategory_not_null_counterexample :
    (handle_whatsapp_message envC5 "2024-01-01 12:00:00"
      (mkTextEvent "777" "Paid 50 USD rent")).2.rows =
      [[JVal.str "2024-01-01", JVal.str "rent", JVal.num 50, JVal.str "USD",
        JVal.str "Rent", JVal.str "", JVal.str "777",
        JVal.str "2024-01-01 12:00:00", JVal.str ""]] ∧
    JVal.str "" ≠ JVal.null :=
  ⟨rfl, fun h => nomatch h⟩

/-- C5, amended: every successfully normalized text event appends exactly
one row in the fixed column order [date, concept, amount, currency,
category, subcategory, sender_id, event_timestamp, file_link] and sends one
success notification, with the subcategory column defaulting to the empty
string (not null); in particular the section-8 example yields the row
["2024-01-01", "rent", 50, "USD", "Rent", "", sender, timestamp, ""]. -/
theorem C5_row_contract_amended :
    (∀ (env : Env) (ts sender raw : String) (fs : List (String × JVal)),
      raw ≠ "" → env.jsonLoads raw = .ok (.obj fs) → invalid_branch fs = false →
      handle_ai_response env ts sender (some raw) none none =
        ⟨[(sender, successMsg)],
         [[pyOr (dictGet fs "date" .null) (.str ts), dictGet fs "concept" (.str ""),
           dictGet fs "amount" (.str ""), dictGet fs "currency" (.str ""),
           dictGet fs "category" (.str ""), dictGet fs "subcategory" (.str ""),
           .str sender, .str ts, .str ""]], [], [], [], [], []⟩) ∧
    handle_whatsapp_message envC5 "2024-01-01 12:00:00"
      (mkTextEvent "777" "Paid 50 USD rent") =
      (.ok (), ⟨[("777", successMsg)],
        [[JVal.str "2024-01-01", JVal.str "rent", JVal.num 50, JVal.str "USD",
          JVal.str "Rent", JVal.str "", JVal.str "777",
          JVal.str "2024-01-01 12:00:00", JVal.str ""]],
        [], [], ["Paid 50 USD rent"], [], []⟩) := by
  constructor
  · intro env ts sender raw fs hraw hdec hval
    simp [handle_ai_response, hraw, hdec, hval, tApp, add_row_to_sheet_eq,
      send_whatsapp_message, noTrace]
  · rfl

/-- Witness for C5_row_contract_amended at the section-8 payload. -/
theorem C5_row_contract_amended_witness :
    handle_ai_response envC5 "2024-01-01 12:00:00" "777" (some "R5") none none =
      ⟨[("777", successMsg)],
       [[pyOr (dictGet
           [("concept", JVal.str "rent"), ("amount", JVal.num 50),
            ("currency", JVal.str "USD"), ("category", JVal.str "Rent"),
            ("folder", JVal.str "Villa"), ("valid_expense", JVal.bool true),
            ("date", JVal.str "2024-01-01")] "date" .null)
           (.str "2024-01-01 12:00:00"),
         JVal.str "rent", JVal.num 50, JVal.str "USD", JVal.str "Rent",
         JVal.str "", JVal.str "777", JVal.str "2024-01-01 12:00:00",
         JVal.str ""]], [], [], [], [], []⟩ :=
  C5_row_contract_amended.1 envC5 "2024-01-01 12:00:00" "777" "R5"
    [("concept", JVal.str "rent"), ("amount", JVal.num 50),
     ("currency", JVal.str "USD"), ("category", JVal.str "Rent"),
     ("folder", JVal.str "Villa"), ("valid_expense", JVal.bool true),
     ("date", JVal.str "2024-01-01")]
    (by decide) rfl rfl

/-- C6: the claim says a failed media resolution or download yields zero
rows, no AI call and one MediaUnavailable notification.  Evaluating the
dispatcher at image and document events: line 54 calls
process_media_message with six arguments, the last the unbound name
historial, so NameError is raised before any media call; the except clause
of line 61 does not catch NameError, so the exception escapes with zero
rows, zero notifications and zero media or AI calls — the webhook delivery
is not even acknowledged.  The third conjunct evaluates the (unreachable)
helper process_media_message itself at a failing URL resolution: it returns
(None, None) after one media-url call, without reaching the extraction
step, confirming the intended failure path. -/
theorem C6_media_event_name_error :
    handle_whatsapp_message envBase "t" (mkImageEvent "777" "m1" "image/jpeg" "") =
      (.error .nameError, noTrace) ∧
    handle_whatsapp_message envBase "t"
      (mkEvent "777" [("type", JVal.str "document"),
        ("document", JVal.obj [("id", JVal.str "d1"),
          ("mime_type", JVal.str "application/pdf")])]) =
      (.error .nameError, noTrace) ∧
    process_media_message envBase "m1" "cap" =
      ((none, none), ⟨[], [], [], [], [], ["m1"], []⟩) :=
  ⟨rfl, rfl, rfl⟩

/-- C7, counterexample: two conjuncts of the claim fail on the source.
First, with media present and the upload failing (as it always does, since
get_folder_id_by_date raises), the row is still appended — but its
file-link column holds None (null), not the empty string the claim states.
Second, failure of the append itself is not terminal either: with a sheets
collaborator whose append raises on exactly the produced row, the event has
the same effects as with a succeeding one — the success notification is
still sent and no failure surfaces (handle_ai_response returns a Trace and
can propagate nothing), because add_row_to_sheet catches every exception on
line 62 of google_service.py, so no PersistenceFailed outcome exists. -/
theorem C7_file_link_and_append_counterexample :
    (handle_ai_response envC7 "2024-01-01 12:00:00" "777" (some "R7")
      (some [55]) (some "application/pdf")).rows =
      [[JVal.str "2024-01-01", JVal.str "x", JVal.str "", JVal.str "",
        JVal.str "", JVal.str "", JVal.str "777",
        JVal.str "2024-01-01 12:00:00", JVal.null]] ∧
    (handle_ai_response envC7 "2024-01-01 12:00:00" "777" (some "R7")
      (some [55]) (some "application/pdf")).messages = [("777", successMsg)] ∧
    JVal.null ≠ JVal.str "" ∧
    envC7SheetsFail.sheets
      [JVal.str "2024-01-01", JVal.str "x", JVal.str "", JVal.str "",
       JVal.str "", JVal.str "", JVal.str "777",
       JVal.str "2024-01-01 12:00:00", JVal.null] = .error () ∧
    handle_ai_response envC7SheetsFail "2024-01-01 12:00:00" "777" (some "R7")
      (some [55]) (some "application/pdf") =
      handle_ai_response envC7 "2024-01-01 12:00:00" "777" (some "R7")
        (some [55]) (some "application/pdf") :=
  by refine ⟨rfl, rfl, ?_, rfl, rfl⟩; exact fun h => nomatch h

/-- C7, amended: failure of the upload step never prevents the append — for
every normalized valid payload the row is written exactly once and the
success notification sent, with the file-link column the empty string when
no media is present and None (null) when media is present (the upload path
always fails before producing a link in the current source); and failure of
the append itself is not terminal either: add_row_to_sheet returns the same
effects for every sheets-collaborator outcome, an append exception being
caught inside the function, so the success notification of the first two
parts is sent regardless of the append outcome (the quantified env covers
failing sheets collaborators). -/
theorem C7_upload_failure_row_still_written :
    (∀ (env : Env) (ts sender raw mt : String) (fs : List (String × JVal))
      (bs : List Nat),
      raw ≠ "" → env.jsonLoads raw = .ok (.obj fs) → invalid_branch fs = false →
      bs.isEmpty = false → mt ≠ "" →
      (handle_ai_response env ts sender (some raw) (some bs) (some mt)).rows =
        [[pyOr (dictGet fs "date" .null) (.str ts), dictGet fs "concept" (.str ""),
          dictGet fs "amount" (.str ""), dictGet fs "currency" (.str ""),
          dictGet fs "category" (.str ""), dictGet fs "subcategory" (.str ""),
          .str sender, .str ts, JVal.null]] ∧
      (handle_ai_response env ts sender (some raw) (some bs) (some mt)).messages =
        [(sender, successMsg)]) ∧
    (∀ (env : Env) (ts sender raw : String) (fs : List (String × JVal)),
      raw ≠ "" → env.jsonLoads raw = .ok (.obj fs) → invalid_branch fs = false →
      (handle_ai_response env ts sender (some raw) none none).rows =
        [[pyOr (dictGet fs "date" .null) (.str ts), dictGet fs "concept" (.str ""),
          dictGet fs "amount" (.str ""), dictGet fs "currency" (.str ""),
          dictGet fs "category" (.str ""), dictGet fs "subcategory" (.str ""),
          .str sender, .str ts, .str ""]]) ∧
    (∀ (env : Env) (row : List JVal),
      add_row_to_sheet env row = ⟨[], [row], [], [], [], [], []⟩) := by
  refine ⟨?_, ?_, ?_⟩
  · intro env ts sender raw mt fs bs hraw hdec hval hbs hmt
    constructor <;>
      simp [handle_ai_response, hraw, hdec, hval, hbs, hmt, beq_iff_eq,
        save_file, get_folder_id_by_date, upload_file_to_drive, tApp,
        add_row_to_sheet_eq, send_whatsapp_message, noTrace]
  · intro env ts sender raw fs hraw hdec hval
    simp [handle_ai_response, hraw, hdec, hval, tApp, add_row_to_sheet_eq,
      send_whatsapp_message, noTrace]
  · intro env row
    unfold add_row_to_sheet
    cases env.sheets row <;> rfl

/-- Witness for C7_upload_failure_row_still_written at the concrete C7
payload, with and without media. -/
theorem C7_upload_failure_row_still_written_witness :
    ((handle_ai_response envC7 "2024-01-01 12:00:00" "777" (some "R7")
      (some [55]) (some "application/pdf")).rows.length = 1 ∧
     (handle_ai_response envC7 "2024-01-01 12:00:00" "777" (some "R7")
      (some [55]) (some "application/pdf")).messages.length = 1) ∧
    (handle_ai_response envC7 "2024-01-01 12:00:00" "777" (some "R7")
      none none).rows.length = 1 := by
  have h1 := C7_upload_failure_row_still_written.1 envC7 "2024-01-01 12:00:00"
    "777" "R7" "application/pdf"
    [("valid_expense", JVal.bool true), ("concept", JVal.str "x"),
     ("date", JVal.str "2024-01-01")] [55]
    (by decide) rfl rfl (by decide) (by decide)
  have h2 := C7_upload_failure_row_still_written.2.1 envC7 "2024-01-01 12:00:00"
    "777" "R7"
    [("valid_expense", JVal.bool true), ("concept", JVal.str "x"),
     ("date", JVal.str "2024-01-01")]
    (by decide) rfl rfl
  refine ⟨⟨?_, ?_⟩, ?_⟩
  · rw [h1.1]; rfl
  · rw [h1.2]; rfl
  · rw [h2]; rfl

/-- C8: the claim says a failed year/month subfolder lookup falls back to
uploading into the parent folder and the resolution step never raises past
its boundary.  In the current source get_folder_id_by_date raises
AttributeError unconditionally (module datetime has no strptime; the later
lines also reference the unbound names dare and year_id_id), so save_file
catches the exception and returns None without uploading anything at all —
not even to the parent.  The last two conjuncts confirm the fallback that
does exist: get_or_create_subfolder returns the parent id both on an empty
search result and on a search exception, and never creates a folder. -/
theorem C8_dated_subfolder_resolution_raises :
    get_folder_id_by_date (some "root") (JVal.str "2024-01-01 00:00:00") =
      .error .attributeError ∧
    save_file envBase [1] (JVal.str "2024-01-01 00:00:00") "f.jpg" "image/jpeg" =
      (JVal.null, ⟨[], [], ["f.jpg"], [], [], [], []⟩) ∧
    get_or_create_subfolder envBase "2024" "root" = "root" ∧
    get_or_create_subfolder envLookupErr "2024" "root" = "root" :=
  ⟨rfl, rfl, rfl, rfl⟩

/-- C9, counterexample: the empty string is not valid JSON (json.loads
raises JSONDecodeError on it), yet the sender receives the empty-response
notification of line 112, not the parse-failure notification — the line 110
truthiness test short-circuits before normalization ever runs. -/
theorem C9_empty_string_counterexample :
    handle_ai_response envBase "t" "777" (some "") none none =
      ⟨[("777", emptyMsg)], [], [], [], [], [], []⟩ ∧
    emptyMsg ≠ parseErrMsg :=
  ⟨rfl, by decide⟩

/-- C9, amended: for every nonempty raw AI text on which json.loads fails,
handle_ai_response sends exactly one parse-failure notification and appends
no row — no partial result survives, regardless of any media arguments. -/
theorem C9_malformed_result_rejected :
    ∀ (env : Env) (ts sender raw : String) (e : PyErr)
      (fb : Option (List Nat)) (mt : Option String),
      raw ≠ "" → env.jsonLoads raw = .error e →
      handle_ai_response env ts sender (some raw) fb mt =
        ⟨[(sender, parseErrMsg)], [], [], [], [], [], []⟩ := by
  intro env ts sender raw e fb mt hraw hdec
  simp [handle_ai_response, hraw, hdec, send_whatsapp_message]

/-- Witness for C9_malformed_result_rejected at a concrete non-JSON string. -/
theorem C9_malformed_result_rejected_witness :
    handle_ai_response envBase "t" "777" (some "not json") none none =
      ⟨[("777", parseErrMsg)], [], [], [], [], [], []⟩ :=
  C9_malformed_result_rejected envBase "t" "777" "not json" .jsonDecodeError
    none none (by decide) rfl

/-- C10: the line 124 guard uses Python truthiness of
expense_data.get('valid_expense') or False, so the invalid-expense branch is
taken exactly when the valid_expense value is falsy — false, null, a
missing key, 0, the empty string, the empty list — while any truthy value,
including the string "false", counts as a valid expense; concretely, a
payload with valid_expense 0 appends no row and one with the string "false"
does append a row. -/
theorem C10_truthiness_guard :
    (∀ fs : List (String × JVal),
      invalid_branch fs = !pyTruthy (dictGet fs "valid_expense" .null)) ∧
    invalid_branch [("valid_expense", JVal.bool false)] = true ∧
    invalid_branch [] = true ∧
    invalid_branch [("valid_expense", JVal.null)] = true ∧
    invalid_branch [("valid_expense", JVal.num 0)] = true ∧
    invalid_branch [("valid_expense", JVal.str "")] = true ∧
    invalid_branch [("valid_expense", JVal.arr [])] = true ∧
    invalid_branch [("valid_expense", JVal.str "false")] = false ∧
    invalid_branch [("valid_expense", JVal.bool true)] = false ∧
    (handle_ai_response envC10 "t" "777" (some "Z") none none).rows = [] ∧
    (handle_ai_response envC10 "t" "777" (some "F") none none).rows ≠ [] := by
  refine ⟨?_, rfl, rfl, rfl, rfl, rfl, rfl, rfl, rfl, rfl, ?_⟩
  · intro fs
    unfold invalid_branch valid_expense_of
    rw [truthy_pyOr_false]
  · simp [handle_ai_response, envC10, envBase, payloadC10b, invalid_branch,
      valid_expense_of, pyOr, pyTruthy, dictGet, tApp, add_row_to_sheet_eq,
      send_whatsapp_message]

end Leo
